import Mathlib

/-!
Verification of the Flow State Tax Monitor backend.

We give a shallow embedding of the scoring function (`src/backend/main.py`),
the HRV collector with its cache and adapter fallback chain
(`src/backend/hrv_collector.py`, `src/backend/hrv_adapters.py`) and the
data aggregator (`src/backend/data_collector_orchestrator.py`), and prove
the spec's testable properties against them.  Python floats are modelled
as rationals; wall-clock times as rationals (seconds); effectful adapter
calls as an oracle environment listing the value each call would return.
-/

namespace FlowState

/-! ## Scoring function (src/backend/main.py, calculate_fqs) -/

/-- `calculate_fqs` from `src/backend/main.py` (lines 115-159), translated
line by line: each ratio is formed without clamping, the three weighted
components are summed, and only the final sum is clamped to [0, 100]. -/
def calculate_fqs (hrv notifications noise_level : ℚ) : ℚ :=
  let hrv_normalized : ℚ := (hrv - 40) / 60
  let hrv_score : ℚ := hrv_normalized * 50
  let notification_normalized : ℚ := notifications / 5
  let notification_score : ℚ := (1 - notification_normalized) * 30
  let noise_normalized : ℚ := noise_level / 10
  let noise_score : ℚ := (1 - noise_normalized) * 20
  let fqs : ℚ := hrv_score + notification_score + noise_score
  max 0 (min 100 fqs)

/-- The unclamped weighted sum inside `calculate_fqs`. -/
def fqs_raw (hrv notifications noise_level : ℚ) : ℚ :=
  (hrv - 40) / 60 * 50 + (1 - notifications / 5) * 30 + (1 - noise_level / 10) * 20

/-- `clamp01` as the spec defines it: `max(0, min(1, x))`. -/
def clamp01 (x : ℚ) : ℚ := max 0 (min 1 x)

/-- Modelled from the spec: the reference scoring definition of §4.6, in
which every normalized ratio is clamped to [0,1] **before** weighting and
the final sum is clamped to [0,100].  This definition follows the spec's
words; it exists to be compared with `calculate_fqs`, which follows the
source. -/
def spec_score (hrv notifications noise : ℚ) : ℚ :=
  max 0 (min 100
    (clamp01 ((hrv - 40) / 60) * 50
      + (1 - clamp01 (notifications / 5)) * 30
      + (1 - clamp01 (noise / 10)) * 20))

/-! ## Simulated adapter (src/backend/hrv_adapters.py, SimulatedAdapter)

Python's `round(x, 1)` rounds to the nearest tenth with ties to even; we
model it over ℚ as `roundTE (10 * x) / 10`. -/

def SIMULATED_HRV_MIN : ℚ := 40
def SIMULATED_HRV_MAX : ℚ := 100

/-- Round to the nearest integer, ties to the even neighbour. -/
def roundTE (q : ℚ) : ℤ :=
  if q - ⌊q⌋ = 1/2 then (if ⌊q⌋ % 2 = 0 then ⌊q⌋ else ⌊q⌋ + 1) else round q

/-- Python's `round(x, 1)`: nearest multiple of 1/10. -/
def round1 (q : ℚ) : ℚ := (roundTE (10 * q) : ℚ) / 10

/-- `SimulatedAdapter.fetch_hrv` from `src/backend/hrv_adapters.py` (lines
330-353): the already-drawn random value (random walk step or initial
Gaussian draw, supplied here as the oracle `draw`) is clamped to
[SIMULATED_HRV_MIN, SIMULATED_HRV_MAX] and rounded to one decimal.  It never
fails. -/
def simulated_fetch_hrv (draw : ℚ) : ℚ :=
  round1 (max SIMULATED_HRV_MIN (min SIMULATED_HRV_MAX draw))

/-! ## Adapter factory (src/backend/hrv_adapters.py, AdapterFactory) -/

/-- The closed set of adapter classes the factory can instantiate. -/
inductive AdapterKind where
  | fitbit
  | garmin
  | oura
  | appleHealthKit
  | simulated
deriving DecidableEq

/-- `AdapterFactory.create_adapter` (lines 369-401): lowercases the source
name, looks it up in the registry and returns the adapter, or raises
`ValueError` (modelled as `none`) for an unknown source.  The
`validate_config` warning does not block construction. -/
def create_adapter (source : String) : Option AdapterKind :=
  if source.toLower = "fitbit" then some .fitbit
  else if source.toLower = "garmin" then some .garmin
  else if source.toLower = "oura" then some .oura
  else if source.toLower = "apple_healthkit" then some .appleHealthKit
  else if source.toLower = "healthkit" then some .appleHealthKit
  else if source.toLower = "simulated" then some .simulated
  else none

/-- `HRVCollector._initialize_adapters` (src/backend/hrv_collector.py, lines
104-131): build one adapter per configured source, skipping sources the
factory rejects; if none could be built, substitute a single Simulated
adapter and set `sources` to `["simulated"]`.  Returns the resulting
(adapters, sources) pair. -/
def initialize_adapters (sources : List String) :
    List AdapterKind × List String :=
  let adapters := sources.filterMap create_adapter
  if adapters.isEmpty then ([.simulated], ["simulated"])
  else (adapters, sources)

/-! ## HRV collector (src/backend/hrv_collector.py, HRVCollector)

The collector's in-memory state.  The adapters' effectful `fetch_hrv` calls
are modelled by an oracle environment: `adapterResults` lists, positionally,
the value each configured adapter's `fetch_hrv` would return on this cycle
(`none` = failure), `simDraw` is the random draw a freshly constructed
Simulated adapter would use, `now` the current wall-clock time in seconds,
and `writeOk` whether writing the cache file would succeed. -/

structure HRVCollectorState where
  sources : List String
  api_source : String
  cached_hrv : Option ℚ
  cache_timestamp : Option ℚ
  cache_source : Option String
deriving DecidableEq

structure FetchEnv where
  now : ℚ
  adapterResults : List (Option ℚ)
  simDraw : ℚ
  writeOk : Bool
deriving DecidableEq

/-- `HRVCollector.CACHE_DURATION` (5 minutes). -/
def CACHE_DURATION : ℚ := 300

/-- `HRVCollector.should_fetch_new_data` (lines 189-200): true if no cache
timestamp exists, or the entry's age is at least `CACHE_DURATION`. -/
def should_fetch_new_data (c : HRVCollectorState) (now : ℚ) : Bool :=
  match c.cache_timestamp with
  | none => true
  | some t => decide (now - t ≥ CACHE_DURATION)

/-- `HRVCollector.save_cache` (lines 164-187): try to write the cache file;
only if the write succeeds are the in-memory fields updated (the three
assignments sit after the file write inside the `try` block, so an exception
leaves them untouched); a failed write is caught and logged. -/
def save_cache (c : HRVCollectorState) (hrv : ℚ) (source : Option String)
    (now : ℚ) (writeOk : Bool) : HRVCollectorState :=
  if writeOk then
    { c with
      cached_hrv := some hrv
      cache_timestamp := some now
      cache_source := some (source.getD c.api_source) }
  else c

/-- First successful adapter in the chain, with its index:
the Python `for i, adapter in enumerate(self.adapters)` loop. -/
def firstSuccess : List (Option ℚ) → ℕ → Option (ℚ × ℕ)
  | [], _ => none
  | some v :: _, i => some (v, i)
  | none :: rest, i => firstSuccess rest (i + 1)

/-- How many adapter `fetch_hrv` calls the loop makes. -/
def adapterCalls : List (Option ℚ) → ℕ
  | [] => 0
  | some _ :: _ => 1
  | none :: rest => 1 + adapterCalls rest

/-- `HRVCollector.fetch_hrv_data` (lines 204-245).  Returns the fetched
value (`none` if everything failed), the new collector state, and the number
of adapter `fetch_hrv` invocations made (configured adapters plus the
last-resort Simulated one).  Branches, as in the source:
cache still valid → return the cached value untouched; otherwise try each
configured adapter in priority order, caching and returning the first
success; if all fail and "simulated" is not among the sources, construct a
fresh Simulated adapter, fetch from it (always succeeds), cache and return;
otherwise return `none`. -/
def fetch_hrv_data (c : HRVCollectorState) (env : FetchEnv) :
    Option ℚ × HRVCollectorState × ℕ :=
  if should_fetch_new_data c env.now = false then
    (c.cached_hrv, c, 0)
  else
    match firstSuccess env.adapterResults 0 with
    | some (hrv, i) =>
        (some hrv,
         save_cache c hrv (some (c.sources.getD i "unknown")) env.now env.writeOk,
         adapterCalls env.adapterResults)
    | none =>
        if "simulated" ∈ c.sources then
          (none, c, adapterCalls env.adapterResults)
        else
          let hrv := simulated_fetch_hrv env.simDraw
          (some hrv,
           save_cache c hrv (some "simulated") env.now env.writeOk,
           adapterCalls env.adapterResults + 1)

/-! ## Data aggregator (src/backend/data_collector_orchestrator.py) -/

/-- `DataAggregator`'s shared state (lines 54-73): one value, one timestamp
and one status string per collector.  The per-field locks only serialize
access and carry no data. -/
structure DataAggregator where
  hrv_value : ℚ
  notification_count : ℚ
  noise_level : ℚ
  hrv_timestamp : Option ℚ
  notification_timestamp : Option ℚ
  noise_timestamp : Option ℚ
  hrv_status : String
  notification_status : String
  noise_status : String

/-- `DataAggregator.__init__`: neutral defaults, no timestamps, all
collectors not started. -/
def DataAggregator.init : DataAggregator :=
  { hrv_value := 70
    notification_count := 0
    noise_level := 5
    hrv_timestamp := none
    notification_timestamp := none
    noise_timestamp := none
    hrv_status := "not_started"
    notification_status := "not_started"
    noise_status := "not_started" }

/-- `DataAggregator.mark_collector_failed` (lines 130-137): set the named
collector's status to "failed"; an unrecognized name changes nothing. -/
def mark_collector_failed (a : DataAggregator) (collector_name : String) :
    DataAggregator :=
  if collector_name = "hrv" then { a with hrv_status := "failed" }
  else if collector_name = "notifications" then
    { a with notification_status := "failed" }
  else if collector_name = "noise" then { a with noise_status := "failed" }
  else a

/-! ## General lemmas -/

theorem calculate_fqs_eq (h n z : ℚ) :
    calculate_fqs h n z = max 0 (min 100 (fqs_raw h n z)) := rfl

theorem clamp_le_clamp {x y : ℚ} (h : x ≤ y) :
    max 0 (min 100 x) ≤ max 0 (min 100 y) :=
  max_le_max le_rfl (min_le_min le_rfl h)

theorem clamp_eq_hundred {x : ℚ} : max 0 (min 100 x) = 100 ↔ 100 ≤ x := by
  rcases le_total 100 x with hx | hx
  · simp [min_eq_left hx, hx]
  · rw [min_eq_right hx]
    constructor
    · intro hmax
      rcases le_total x 0 with h0 | h0
      · rw [max_eq_left h0] at hmax
        exact absurd hmax (by norm_num)
      · rw [max_eq_right h0] at hmax
        exact le_of_eq hmax.symm
    · intro h100
      have : x = 100 := le_antisymm hx h100
      simp [this]

theorem clamp_eq_zero {x : ℚ} : max 0 (min 100 x) = 0 ↔ x ≤ 0 := by
  constructor
  · intro hmax
    rcases le_total x 100 with hx | hx
    · rw [min_eq_right hx] at hmax
      exact max_eq_left_iff.mp hmax
    · rw [min_eq_left hx] at hmax
      exact absurd (max_eq_left_iff.mp hmax) (by norm_num)
  · intro h0
    rw [min_eq_right (by linarith : x ≤ 100)]
    exact max_eq_left h0

theorem clamp01_of_mem {x : ℚ} (h0 : 0 ≤ x) (h1 : x ≤ 1) : clamp01 x = x := by
  unfold clamp01
  rw [min_eq_right h1, max_eq_right h0]

theorem roundTE_bounds (q : ℚ) : ⌊q⌋ ≤ roundTE q ∧ roundTE q ≤ ⌈q⌉ := by
  unfold roundTE
  split
  · rename_i htie
    have hne : (⌊q⌋ : ℚ) < q := by
      have : q - ⌊q⌋ = 1/2 := htie
      linarith
    have hceil : ⌊q⌋ + 1 ≤ ⌈q⌉ := by
      have : ⌊q⌋ < ⌈q⌉ := Int.lt_ceil.mpr hne
      omega
    split
    · exact ⟨le_refl _, by omega⟩
    · exact ⟨by omega, hceil⟩
  · constructor
    · rw [round_eq]
      exact Int.floor_le_floor (by linarith)
    · rw [round_eq]
      rw [Int.floor_le_iff]
      have := Int.le_ceil q
      push_cast at this
      linarith

/-- `roundTE` maps a rational between two integers to an integer between them. -/
theorem roundTE_mem {a b : ℤ} {q : ℚ} (ha : (a : ℚ) ≤ q) (hb : q ≤ (b : ℚ)) :
    a ≤ roundTE q ∧ roundTE q ≤ b := by
  obtain ⟨h1, h2⟩ := roundTE_bounds q
  constructor
  · calc a = ⌊(a : ℚ)⌋ := (Int.floor_intCast a).symm
      _ ≤ ⌊q⌋ := Int.floor_le_floor ha
      _ ≤ roundTE q := h1
  · calc roundTE q ≤ ⌈q⌉ := h2
      _ ≤ ⌈(b : ℚ)⌉ := Int.ceil_le_ceil hb
      _ = b := Int.ceil_intCast b

theorem simulated_fetch_hrv_range (draw : ℚ) :
    40 ≤ simulated_fetch_hrv draw ∧ simulated_fetch_hrv draw ≤ 100 := by
  unfold simulated_fetch_hrv round1
  set c : ℚ := max SIMULATED_HRV_MIN (min SIMULATED_HRV_MAX draw) with hc
  have hlo : (40 : ℚ) ≤ c := le_max_left _ _
  have hhi : c ≤ 100 := max_le (by norm_num [SIMULATED_HRV_MIN, SIMULATED_HRV_MAX])
    (min_le_left _ _)
  have hmem := roundTE_mem (a := 400) (b := 1000) (q := 10 * c)
    (by push_cast; linarith) (by push_cast; linarith)
  constructor
  · rw [le_div_iff₀ (by norm_num : (0:ℚ) < 10)]
    have : ((400 : ℤ) : ℚ) ≤ (roundTE (10 * c) : ℚ) := by exact_mod_cast hmem.1
    push_cast at this ⊢
    linarith
  · rw [div_le_iff₀ (by norm_num : (0:ℚ) < 10)]
    have : ((roundTE (10 * c)) : ℚ) ≤ ((1000 : ℤ) : ℚ) := by exact_mod_cast hmem.2
    push_cast at this ⊢
    linarith

theorem firstSuccess_eq_none {l : List (Option ℚ)}
    (h : ∀ r ∈ l, r = none) : ∀ i, firstSuccess l i = none := by
  induction l with
  | nil => intro i; rfl
  | cons a rest ih =>
      intro i
      have ha : a = none := h a (List.mem_cons_self a rest)
      subst ha
      exact ih (fun r hr => h r (List.mem_cons_of_mem _ hr)) (i + 1)

/-- A cache hit returns the cached value, leaves the state untouched and
makes no adapter call. -/
theorem fetch_cache_hit (c : HRVCollectorState) (env : FetchEnv)
    (hfresh : should_fetch_new_data c env.now = false) :
    fetch_hrv_data c env = (c.cached_hrv, c, 0) := by
  unfold fetch_hrv_data
  rw [if_pos hfresh]

/-- After a stale-cache fetch that succeeded and whose cache write went
through, the in-memory cache holds exactly the returned value, stamped with
the fetch time. -/
theorem fetch_result_cached (c : HRVCollectorState) (env : FetchEnv) (v : ℚ)
    (hstale : should_fetch_new_data c env.now = true)
    (hw : env.writeOk = true)
    (hres : (fetch_hrv_data c env).1 = some v) :
    (fetch_hrv_data c env).2.1.cached_hrv = some v ∧
      (fetch_hrv_data c env).2.1.cache_timestamp = some env.now := by
  unfold fetch_hrv_data at hres ⊢
  rw [if_neg (by simp [hstale])] at hres ⊢
  cases hfs : firstSuccess env.adapterResults 0 with
  | some p =>
      obtain ⟨w, i⟩ := p
      rw [hfs] at hres
      dsimp only at hres
      dsimp only
      injection hres with hres
      subst hres
      simp [save_cache, hw]
  | none =>
      rw [hfs] at hres
      dsimp only at hres
      dsimp only
      by_cases hmem : "simulated" ∈ c.sources
      · rw [if_pos hmem] at hres
        dsimp only at hres
        simp at hres
      · rw [if_neg hmem] at hres
        rw [if_neg hmem]
        dsimp only at hres
        dsimp only
        injection hres with hres
        subst hres
        simp [save_cache, hw]

/-! ## Claims C1-C10 -/

/-- C1 (counterexample): `calculate_fqs` does not equal the spec's reference
definition on all real inputs.  At (hrv, notifications, noise) = (1000, 5, 10)
the code's unclamped HRV ratio contributes 800 points, so the code returns
100, while the reference (which clamps each ratio to [0,1] before weighting)
returns 50. -/
theorem fqs_spec_counterexample :
    calculate_fqs 1000 5 10 = 100 ∧ spec_score 1000 5 10 = 50 ∧
      calculate_fqs 1000 5 10 ≠ spec_score 1000 5 10 := by
  norm_num [calculate_fqs, spec_score, clamp01]

/-- C1 (amended): `calculate_fqs` agrees with the spec's reference definition
on every input whose three normalized ratios lie in [0,1], i.e. on the
nominal box 40 ≤ hrv ≤ 100, 0 ≤ notifications ≤ 5, 0 ≤ noise ≤ 10; outside
that box the code clamps only the final sum, not each ratio. -/
theorem fqs_eq_spec_on_nominal (h n z : ℚ)
    (hh0 : 40 ≤ h) (hh1 : h ≤ 100) (hn0 : 0 ≤ n) (hn1 : n ≤ 5)
    (hz0 : 0 ≤ z) (hz1 : z ≤ 10) :
    calculate_fqs h n z = spec_score h n z := by
  rw [calculate_fqs_eq, spec_score,
    clamp01_of_mem (by linarith) (by linarith : (h - 40) / 60 ≤ 1),
    clamp01_of_mem (by linarith) (by linarith : n / 5 ≤ 1),
    clamp01_of_mem (by linarith) (by linarith : z / 10 ≤ 1)]
  rfl

/-- Witness for C1's amended theorem at (70, 2.5, 5). -/
theorem fqs_eq_spec_on_nominal_witness :
    (40 : ℚ) ≤ 70 ∧ calculate_fqs 70 (5/2) 5 = spec_score 70 (5/2) 5 :=
  ⟨by norm_num, fqs_eq_spec_on_nominal 70 (5/2) 5 (by norm_num) (by norm_num)
    (by norm_num) (by norm_num) (by norm_num) (by norm_num)⟩

/-- C2: the score is bounded to [0,100] for all real-valued inputs, with no
precondition on the inputs being in their nominal ranges. -/
theorem fqs_range (h n z : ℚ) :
    0 ≤ calculate_fqs h n z ∧ calculate_fqs h n z ≤ 100 := by
  rw [calculate_fqs_eq]
  exact ⟨le_max_left _ _, max_le (by norm_num) (min_le_left _ _)⟩

/-- C3: `calculate_fqs` is monotone in each argument separately over all
real inputs: non-decreasing in hrv, non-increasing in notifications,
non-increasing in noise. -/
theorem fqs_monotone (h1 h2 n1 n2 z1 z2 h n z : ℚ) :
    (h1 < h2 → calculate_fqs h1 n z ≤ calculate_fqs h2 n z) ∧
    (n1 < n2 → calculate_fqs h n1 z ≥ calculate_fqs h n2 z) ∧
    (z1 < z2 → calculate_fqs h n z1 ≥ calculate_fqs h n z2) := by
  refine ⟨?_, ?_, ?_⟩ <;>
    · intro hlt
      rw [calculate_fqs_eq, calculate_fqs_eq]
      apply clamp_le_clamp
      unfold fqs_raw
      linarith

/-- Witness for C3 at hrv 50 < 60, notifications 1 < 2, noise 3 < 4
(others held at hrv = 70, notifications = 2, noise = 5). -/
theorem fqs_monotone_witness :
    calculate_fqs 50 2 5 ≤ calculate_fqs 60 2 5 ∧
    calculate_fqs 70 1 5 ≥ calculate_fqs 70 2 5 ∧
    calculate_fqs 70 2 3 ≥ calculate_fqs 70 2 4 :=
  ⟨(fqs_monotone 50 60 1 2 3 4 70 2 5).1 (by norm_num),
   (fqs_monotone 50 60 1 2 3 4 70 2 5).2.1 (by norm_num),
   (fqs_monotone 50 60 1 2 3 4 70 2 5).2.2 (by norm_num)⟩

/-- C4 (counterexample): the value 100.0 is NOT attained only at inputs with
hrv ≥ 100, notifications ≤ 0, noise ≤ 0 — at (220, 5, 10) the unclamped HRV
component alone reaches 150, so the clamped score is 100 even though
notifications = 5 > 0 and noise = 10 > 0.  Symmetrically, 0.0 is NOT
attained only at the fully inverse extreme: at (-80, 0, 0) the score is 0
even though notifications = 0 < 5 and noise = 0 < 10. -/
theorem fqs_extremes_counterexample :
    calculate_fqs 220 5 10 = 100 ∧ ((5 : ℚ) > 0) ∧
      calculate_fqs (-80) 0 0 = 0 ∧ ((0 : ℚ) < 5) := by
  norm_num [calculate_fqs]

/-- C4 (amended): `calculate_fqs 100 0 0 = 100` and `calculate_fqs 40 5 10 = 0`,
and the score saturates rather than exceeding its bounds for out-of-range
inputs (e.g. hrv = 1000 still yields 100).  The value 100 is attained exactly
when the unclamped weighted sum reaches 100 — which can also happen at
inputs with hrv > 100 compensating nonzero penalties — and 0 exactly when
that sum is ≤ 0. -/
theorem fqs_extremes :
    calculate_fqs 100 0 0 = 100 ∧ calculate_fqs 40 5 10 = 0 ∧
    calculate_fqs 1000 0 0 = 100 ∧
    (∀ h n z, calculate_fqs h n z = 100 ↔ 100 ≤ fqs_raw h n z) ∧
    (∀ h n z, calculate_fqs h n z = 0 ↔ fqs_raw h n z ≤ 0) := by
  refine ⟨by norm_num [calculate_fqs], by norm_num [calculate_fqs],
    by norm_num [calculate_fqs], ?_, ?_⟩
  · intro h n z
    rw [calculate_fqs_eq]
    exact clamp_eq_hundred
  · intro h n z
    rw [calculate_fqs_eq]
    exact clamp_eq_zero

/-- Witness for C4's amended theorem: the attainment characterizations
applied at (130, 0, 0) and (40, 5, 10). -/
theorem fqs_extremes_witness :
    calculate_fqs 130 0 0 = 100 ∧ calculate_fqs 40 5 10 = 0 :=
  ⟨(fqs_extremes.2.2.2.1 130 0 0).mpr (by norm_num [fqs_raw]),
   (fqs_extremes.2.2.2.2 40 5 10).mpr (by norm_num [fqs_raw])⟩

/-- C5 (counterexample): on the spec's first worked example (88, 0, 2.5) the
code returns exactly 85, which is 3.75 below the spec's claimed ≈ 88.75
(= 355/4) — not approximately equal. -/
theorem fqs_example_counterexample :
    calculate_fqs 88 0 (5/2) = 85 ∧ (355/4 : ℚ) - calculate_fqs 88 0 (5/2) = 15/4 := by
  norm_num [calculate_fqs]

/-- C5 (amended): `calculate_fqs 88 0 2.5 = 85` (a high-focus score, ≥ 75 as
the repository's own test asserts); `calculate_fqs 65 4.5 8 ≤ 40`; and
`calculate_fqs 70 2.5 5 = 50` lies in the mid-range 50 to 70. -/
theorem fqs_examples :
    calculate_fqs 88 0 (5/2) = 85 ∧ (75 : ℚ) ≤ calculate_fqs 88 0 (5/2) ∧
    calculate_fqs 65 (9/2) 8 ≤ 40 ∧
    50 ≤ calculate_fqs 70 (5/2) 5 ∧ calculate_fqs 70 (5/2) 5 ≤ 70 := by
  norm_num [calculate_fqs]

/-- C6: when no configured source is "simulated", every configured adapter
fails, and the cache is stale or empty, `fetch_hrv_data` does not return
`none`: it tries a fresh Simulated adapter as a last resort and returns its
value, which lies in the Simulated adapter's valid HRV range [40, 100]. -/
theorem fallback_guarantee (c : HRVCollectorState) (env : FetchEnv)
    (hsim : "simulated" ∉ c.sources)
    (hfail : ∀ r ∈ env.adapterResults, r = none)
    (hstale : should_fetch_new_data c env.now = true) :
    ∃ v, (fetch_hrv_data c env).1 = some v ∧ 40 ≤ v ∧ v ≤ 100 := by
  unfold fetch_hrv_data
  rw [if_neg (by simp [hstale]), firstSuccess_eq_none hfail 0, if_neg hsim]
  exact ⟨simulated_fetch_hrv env.simDraw, rfl,
    (simulated_fetch_hrv_range env.simDraw).1,
    (simulated_fetch_hrv_range env.simDraw).2⟩

/-- Witness for C6: a collector configured with the single (failing) source
"fitbit", an empty cache, and a simulated draw of 37. -/
theorem fallback_guarantee_witness :
    ∃ v, (fetch_hrv_data
      { sources := ["fitbit"], api_source := "fitbit", cached_hrv := none,
        cache_timestamp := none, cache_source := none }
      { now := 0, adapterResults := [none], simDraw := 37, writeOk := true }).1
        = some v ∧ 40 ≤ v ∧ v ≤ 100 :=
  fallback_guarantee _ _ (by simp) (by simp) rfl

/-- C7: cache idempotence.  (i) `should_fetch_new_data` is true exactly when
no cache timestamp exists or the entry's age reached the 300-second window;
(ii) when it is false, `fetch_hrv_data` returns exactly the cached value,
leaves the state unchanged and invokes no adapter; (iii) hence a stale-cache
fetch that succeeds (and writes its cache) followed by a second fetch within
the window returns the identical value with zero additional adapter
invocations, so the chain runs at most once across the two fetches. -/
theorem cache_idempotence :
    (∀ c now, should_fetch_new_data c now = true ↔
      (c.cache_timestamp = none ∨
        ∃ t, c.cache_timestamp = some t ∧ CACHE_DURATION ≤ now - t)) ∧
    (∀ c env, should_fetch_new_data c env.now = false →
      fetch_hrv_data c env = (c.cached_hrv, c, 0)) ∧
    (∀ c env1 env2 v, should_fetch_new_data c env1.now = true →
      env1.writeOk = true →
      (fetch_hrv_data c env1).1 = some v →
      env2.now - env1.now < CACHE_DURATION →
      fetch_hrv_data (fetch_hrv_data c env1).2.1 env2
        = (some v, (fetch_hrv_data c env1).2.1, 0)) := by
  refine ⟨?_, ?_, ?_⟩
  · intro c now
    cases ht : c.cache_timestamp with
    | none => simp [should_fetch_new_data, ht]
    | some t => simp [should_fetch_new_data, ht]
  · intro c env hfresh
    exact fetch_cache_hit c env hfresh
  · intro c env1 env2 v hstale hw hres hwin
    obtain ⟨hv, ht⟩ := fetch_result_cached c env1 v hstale hw hres
    have hfresh : should_fetch_new_data (fetch_hrv_data c env1).2.1 env2.now = false := by
      rw [should_fetch_new_data, ht]
      simp only [decide_eq_false_iff_not, not_le]
      linarith
    rw [fetch_cache_hit _ _ hfresh, hv]

/-- Witness for C7: a collector with one always-succeeding simulated source;
first fetch at t = 0 caches 70, second at t = 100 (inside the 300 s window)
returns the identical value with zero adapter invocations. -/
theorem cache_idempotence_witness :
    should_fetch_new_data
      { sources := ["simulated"], api_source := "simulated", cached_hrv := none,
        cache_timestamp := none, cache_source := none } 0 = true ∧
    fetch_hrv_data
      { sources := ["simulated"], api_source := "simulated",
        cached_hrv := some 70, cache_timestamp := some 0,
        cache_source := some "simulated" }
      { now := 100, adapterResults := [], simDraw := 0, writeOk := true }
      = (some 70,
         { sources := ["simulated"], api_source := "simulated",
           cached_hrv := some 70, cache_timestamp := some 0,
           cache_source := some "simulated" }, 0) ∧
    fetch_hrv_data
      (fetch_hrv_data
        { sources := ["simulated"], api_source := "simulated", cached_hrv := none,
          cache_timestamp := none, cache_source := none }
        { now := 0, adapterResults := [some 70], simDraw := 0, writeOk := true }).2.1
      { now := 100, adapterResults := [some 70], simDraw := 0, writeOk := true }
      = (some 70,
         (fetch_hrv_data
           { sources := ["simulated"], api_source := "simulated", cached_hrv := none,
             cache_timestamp := none, cache_source := none }
           { now := 0, adapterResults := [some 70], simDraw := 0, writeOk := true }).2.1,
         0) :=
  ⟨(cache_idempotence.1 _ 0).mpr (Or.inl rfl),
   cache_idempotence.2.1 _ _ (by norm_num [should_fetch_new_data, CACHE_DURATION]),
   cache_idempotence.2.2 _ _ _ 70 rfl rfl rfl
     (by norm_num [CACHE_DURATION])⟩

/-- C8: `mark_collector_failed` touches only the named collector's status:
all three values and all three timestamps are unchanged, and each status
equals "failed" for the named collector and its old value otherwise. -/
theorem mark_failed_frame (a : DataAggregator) (name : String)
    (hname : name = "hrv" ∨ name = "notifications" ∨ name = "noise") :
    (mark_collector_failed a name).hrv_value = a.hrv_value ∧
    (mark_collector_failed a name).notification_count = a.notification_count ∧
    (mark_collector_failed a name).noise_level = a.noise_level ∧
    (mark_collector_failed a name).hrv_timestamp = a.hrv_timestamp ∧
    (mark_collector_failed a name).notification_timestamp = a.notification_timestamp ∧
    (mark_collector_failed a name).noise_timestamp = a.noise_timestamp ∧
    (mark_collector_failed a name).hrv_status
      = (if name = "hrv" then "failed" else a.hrv_status) ∧
    (mark_collector_failed a name).notification_status
      = (if name = "notifications" then "failed" else a.notification_status) ∧
    (mark_collector_failed a name).noise_status
      = (if name = "noise" then "failed" else a.noise_status) := by
  rcases hname with h | h | h <;> subst h <;>
    simp [mark_collector_failed]

/-- Witness for C8: marking "notifications" failed on the freshly
initialized aggregator. -/
theorem mark_failed_frame_witness :
    (mark_collector_failed DataAggregator.init "notifications").hrv_value
        = DataAggregator.init.hrv_value ∧
    (mark_collector_failed DataAggregator.init "notifications").notification_count
        = DataAggregator.init.notification_count ∧
    (mark_collector_failed DataAggregator.init "notifications").noise_level
        = DataAggregator.init.noise_level ∧
    (mark_collector_failed DataAggregator.init "notifications").hrv_timestamp
        = DataAggregator.init.hrv_timestamp ∧
    (mark_collector_failed DataAggregator.init "notifications").notification_timestamp
        = DataAggregator.init.notification_timestamp ∧
    (mark_collector_failed DataAggregator.init "notifications").noise_timestamp
        = DataAggregator.init.noise_timestamp ∧
    (mark_collector_failed DataAggregator.init "notifications").hrv_status
        = (if "notifications" = "hrv" then "failed"
           else DataAggregator.init.hrv_status) ∧
    (mark_collector_failed DataAggregator.init "notifications").notification_status
        = (if "notifications" = "notifications" then "failed"
           else DataAggregator.init.notification_status) ∧
    (mark_collector_failed DataAggregator.init "notifications").noise_status
        = (if "notifications" = "noise" then "failed"
           else DataAggregator.init.noise_status) :=
  mark_failed_frame DataAggregator.init "notifications" (Or.inr (Or.inl rfl))

/-- C9: `_initialize_adapters` never leaves the adapter list empty: for every
sources list (empty, or containing only unknown names), at least one adapter
remains, and when no configured source yields an adapter the result is a
single Simulated adapter with sources reset to ["simulated"]. -/
theorem adapters_nonempty (sources : List String) :
    (initialize_adapters sources).1 ≠ [] ∧
    (sources.filterMap create_adapter = [] →
      initialize_adapters sources = ([.simulated], ["simulated"])) := by
  unfold initialize_adapters
  by_cases hempty : sources.filterMap create_adapter = []
  · simp [hempty]
  · constructor
    · simp [List.isEmpty_iff, hempty]
    · intro h
      exact absurd h hempty

/-- Witness for C9: the empty sources list falls back to a single Simulated
adapter. -/
theorem adapters_nonempty_witness :
    (initialize_adapters []).1 ≠ [] ∧
    initialize_adapters [] = ([.simulated], ["simulated"]) :=
  ⟨(adapters_nonempty []).1,
   (adapters_nonempty []).2 rfl⟩

/-- C10: `save_cache` is atomic with respect to failure: if the cache-file
write fails, the in-memory fields `cached_hrv`, `cache_timestamp` and
`cache_source` are left unchanged — so a failed save never changes what
`should_fetch_new_data` reports — and only after the write succeeds are they
set to the new value, the current time, and the providing source (defaulting
to `api_source`). -/
theorem save_cache_atomic :
    (∀ c hrv src now, save_cache c hrv src now false = c) ∧
    (∀ c hrv src now t,
      should_fetch_new_data (save_cache c hrv src now false) t
        = should_fetch_new_data c t) ∧
    (∀ c hrv src now,
      (save_cache c hrv src now true).cached_hrv = some hrv ∧
      (save_cache c hrv src now true).cache_timestamp = some now ∧
      (save_cache c hrv src now true).cache_source = some (src.getD c.api_source) ∧
      (save_cache c hrv src now true).sources = c.sources ∧
      (save_cache c hrv src now true).api_source = c.api_source) := by
  refine ⟨?_, ?_, ?_⟩ <;> intros <;> simp [save_cache]

end FlowState
